import Mathlib

/-!
Shallow embedding of two modules of this repository:

1. `formatActionsMultiple.ts` — the two "Format … With..." editor commands
   (quick-pick over formatting providers, telemetry, dispatch to the picked
   provider).
2. The admin-tool extension (`activate`, `launchSsmsDialog`,
   `buildSsmsMinCommandArgs`) that shells out to SsmsMin.exe.

JavaScript-specific behaviour is embedded explicitly:
  * optional fields are `Option _`; JS truthiness of a string is "nonempty",
    of an optional value is "present and truthy";
  * string concatenation with `undefined` produces the text "undefined";
  * the template literal of `buildSsmsMinCommandArgs` uses `\`-escaped
    newlines, so the separator between the action segment and the server
    segment is the 4-space indentation, and between later segments a literal
    space followed by the 4-space indentation (5 spaces).
-/

namespace ADS

/-- JS truthiness of a required string field: nonempty. -/
def strTruthy (s : String) : Bool := s ≠ ""

/-- JS truthiness of an optional string field: present and nonempty. -/
def optStrTruthy : Option String → Bool
  | none => false
  | some s => s ≠ ""

/-- JS coercion of a possibly-`undefined` string to a string: string
concatenation renders `undefined` as the text "undefined". -/
def jsStr : Option String → String
  | none => "undefined"
  | some s => s

/-- Substring test: `strContains s pat` holds when `pat` occurs contiguously
inside `s`. -/
def strContains (s pat : String) : Bool :=
  (List.range (s.data.length + 1)).any fun i =>
    (s.data.drop i).take pat.data.length == pat.data

/-- Structure `LaunchSsmsDialogParams` from the source: params to pass to SsmsMin.exe;
only `action` and `server` are required. -/
structure LaunchSsmsDialogParams where
  action : String
  server : String
  database : Option String := none
  user : Option String := none
  password : Option String := none
  useAad : Option Bool := none
  urn : Option String := none
deriving DecidableEq, Repr

/-- Segment for the action: emits -a with the double-quoted action when the
action string is truthy. -/
def actionSeg (p : LaunchSsmsDialogParams) : String :=
  if strTruthy p.action then "-a \"" ++ p.action ++ "\"" else ""

/-- Segment for the server: emits -S with the double-quoted server when the
server string is truthy. -/
def serverSeg (p : LaunchSsmsDialogParams) : String :=
  if strTruthy p.server then "-S \"" ++ p.server ++ "\"" else ""

/-- Segment for the database: emits -D with the double-quoted database when
the database field is truthy. -/
def databaseSeg (p : LaunchSsmsDialogParams) : String :=
  if optStrTruthy p.database then "-D \"" ++ jsStr p.database ++ "\"" else ""

/-- Segment for the user: emits -U with the double-quoted user whenever
useAad is not strictly true. The guard tests `useAad`, not `user`; a missing
`user` is rendered as the text undefined by JS string concatenation. -/
def userSeg (p : LaunchSsmsDialogParams) : String :=
  if p.useAad ≠ some true then "-U \"" ++ jsStr p.user ++ "\"" else ""

/-- Segment for alternate authentication: emits -G when useAad is strictly
true. -/
def aadSeg (p : LaunchSsmsDialogParams) : String :=
  if p.useAad = some true then "-G" else ""

/-- Segment for the urn: emits lowercase -u with the double-quoted urn when
the urn field is truthy. -/
def urnSeg (p : LaunchSsmsDialogParams) : String :=
  if optStrTruthy p.urn then "-u \"" ++ jsStr p.urn ++ "\"" else ""

/-- Function `buildSsmsMinCommandArgs` from the source: the template literal joining
the six segments. The backslash-escaped newlines make the separators the
literal indentation: 4 spaces after the action segment, and a space plus the
4-space indentation (5 spaces) after the later segments. -/
def buildSsmsMinCommandArgs (p : LaunchSsmsDialogParams) : String :=
  actionSeg p ++ "    " ++ serverSeg p ++ "     " ++ databaseSeg p ++ "     "
    ++ userSeg p ++ "     " ++ aadSeg p ++ "     " ++ urnSeg p

/-- The fixed action literal written into the params by `launchSsmsDialog`. -/
def fixedAction : String := "sqla:Properties@Microsoft.SqlServer.Management.Smo.Server"

/-- The fields of `sqlops.IConnectionProfile` read by `launchSsmsDialog`. -/
structure IConnectionProfile where
  serverName : String
  databaseName : Option String := none
  userName : Option String := none
  password : Option String := none
  authenticationType : String
deriving DecidableEq, Repr

/-- A telemetry event: name and string properties in emission order. -/
structure TelemetryEvent where
  name : String
  props : List (String × String)
deriving DecidableEq, Repr

/-- The observable effects of the `shelljs.exec` call made by
`launchSsmsDialog`: the command line, the params the args were built from,
what `proc.stdin.end(...)` wrote (`none` when stdin is left untouched;
`stdin.end s` writes `s` and closes the stream), and the `action` property the
exit callback will report in its `LaunchSsmsDialogResult` event. -/
structure SpawnedProc where
  command : String
  builtParams : LaunchSsmsDialogParams
  stdinEnd : Option String
  resultAction : String
deriving DecidableEq, Repr

/-- The observable effects of one `launchSsmsDialog` call. -/
structure LaunchResult where
  errorMessages : List String
  telemetry : List TelemetryEvent
  spawned : Option SpawnedProc
deriving DecidableEq, Repr

/-- The local `params` object `launchSsmsDialog` constructs from the
connection profile: the action is the fixed literal, the other fields are
copied from the profile, and `useAad` is the strict equality of the
authentication type with AzureMFA. -/
def ssmsParamsOf (connectionProfile : IConnectionProfile)
    (urn : Option String) : LaunchSsmsDialogParams :=
  { action := fixedAction
    server := connectionProfile.serverName
    database := connectionProfile.databaseName
    password := connectionProfile.password
    user := connectionProfile.userName
    useAad := some (connectionProfile.authenticationType == "AzureMFA")
    urn := urn }

/-- Function `launchSsmsDialog` from the source. The module-level mutable `exePath`
(declared `let exePath: string`, hence `undefined` until assigned) is passed
as `exePath : Option String`; `!exePath` is JS falsiness of that value. -/
def launchSsmsDialog (exePath : Option String) (action : String)
    (connectionProfile : IConnectionProfile) (urn : Option String) :
    LaunchResult :=
  if optStrTruthy exePath = false then
    { errorMessages := ["Unable to find SsmsMin.exe."]
      telemetry := []
      spawned := none }
  else
    let params : LaunchSsmsDialogParams := ssmsParamsOf connectionProfile urn
    let args := buildSsmsMinCommandArgs params
    { errorMessages := []
      telemetry := [{ name := "LaunchSsmsDialog", props := [("action", action)] }]
      spawned := some
        { command := "\"" ++ jsStr exePath ++ "\" " ++ args
          builtParams := params
          stdinEnd :=
            if params.useAad ≠ some true then
              some (if optStrTruthy params.password then jsStr params.password else "")
            else none
          resultAction := params.action } }

/-- A JS configuration value, enough for the `http` settings read during
activation (`undefined`, a boolean, or a string). -/
inductive JSVal where
  | undef : JSVal
  | bool : Bool → JSVal
  | str : String → JSVal
deriving DecidableEq, Repr

/-- JS truthiness of a `JSVal`. -/
def JSVal.truthy : JSVal → Bool
  | .undef => false
  | .bool b => b
  | .str s => s ≠ ""

/-- JS `a || b`: `a` when truthy, else `b`. -/
def jsOr (a b : JSVal) : JSVal := if a.truthy then a else b

/-- The download configuration fields `activate` fills in. -/
structure DownloadConfig where
  installDirectory : String
  proxy : JSVal
  strictSSL : JSVal
deriving DecidableEq, Repr

/-- Node `path.join` on Windows, modelled as backslash joining (its exact
separator behaviour is not observable by any claim). -/
def pathJoin (a b : String) : String := a ++ "\\" ++ b

/-- Outcome of `serverdownloader.getOrDownloadServer()` followed (on success)
by `serverdownloader.getServerPath()`: either success carrying the path that
`getServerPath` later resolves with, or rejection. -/
inductive DownloadOutcome where
  | success : Option String → DownloadOutcome
  | failure : DownloadOutcome
deriving DecidableEq, Repr

/-- The observable effects of `activate`. `resolved`/`rejected` describe the
returned promise (both `false` on the non-win32 branch, which returns no
promise at all); `exePathSet` is the value assigned to the module-level
`exePath` (`none` when the `if(path)` guard skips the assignment). -/
structure ActivateResult where
  commandRegistered : Bool
  config : Option DownloadConfig
  telemetry : List String
  errorMessages : List String
  resolved : Bool
  rejected : Bool
  exePathSet : Option String
deriving DecidableEq, Repr

/-- Function `activate` from the source. `baseInstallDirectory` is the
`installDirectory` value of the static `config.json` template;
`proxySetting` and `strictSSLSetting` are the host `http.proxy` and
`http.proxyStrictSSL` configuration values. -/
def activate (platform : String) (extensionPath : String)
    (baseInstallDirectory : String) (proxySetting strictSSLSetting : JSVal)
    (outcome : DownloadOutcome) : ActivateResult :=
  if platform == "win32" then
    let config : DownloadConfig :=
      { installDirectory := pathJoin extensionPath baseInstallDirectory
        proxy := proxySetting
        strictSSL := jsOr strictSSLSetting (JSVal.bool true) }
    match outcome with
    | .success serverPath =>
        { commandRegistered := true
          config := some config
          telemetry := ["startup/ExtensionStarted"]
          errorMessages := []
          resolved := true
          rejected := false
          exePathSet := if optStrTruthy serverPath then serverPath else none }
    | .failure =>
        { commandRegistered := true
          config := some config
          telemetry := ["startup/ExtensionInitializationFailed"]
          errorMessages := []
          resolved := true
          rejected := false
          exePathSet := none }
  else
    { commandRegistered := true
      config := none
      telemetry := []
      errorMessages := ["The Admin Tool Extension is only supported on Windows platforms."]
      resolved := false
      rejected := false
      exePathSet := none }

/-- The fields of a formatting provider read by the picker commands:
`displayName` (used for the pick label) and the identifier value of the contributing
extension (`none` when the provider has no `extensionId`). -/
structure FormatProvider where
  displayName : Option String := none
  extensionId : Option String := none
deriving DecidableEq, Repr

/-- Modelled: `ExtensionIdentifier.toKey` (defined outside this module)
normalizes an identifier value to lower case. No claim depends on the exact
normalization. -/
def ExtensionIdentifier.toKey (value : String) : String := value.toLower

/-- The `extKey` helper of `logFormatterTelemetry`: the extension key of a
provider, or "unknown" when it carries no `extensionId`. -/
def extKey (obj : FormatProvider) : String :=
  match obj.extensionId with
  | some id => ExtensionIdentifier.toKey id
  | none => "unknown"

/-- The payload of one `formatterpick` telemetry event. -/
structure FormatterPickEvent where
  mode : String
  extensions : List String
  pick : String
deriving DecidableEq, Repr

/-- Function `logFormatterTelemetry` from the source: one `formatterpick` event with
the invocation mode, the keys of all offered providers, and the key of the
picked provider or "none". -/
def logFormatterTelemetry (mode : String) (options : List FormatProvider)
    (pick : Option FormatProvider) : FormatterPickEvent :=
  { mode := mode
    extensions := options.map extKey
    pick := match pick with
            | some p => extKey p
            | none => "none" }

/-- The `IIndexedPick` entries built for the quick-pick: original list
position and label: the displayName of the provider, defaulted by the JS
or-operator to the empty string. -/
def picksOf (provider : List FormatProvider) : List (Nat × String) :=
  provider.mapIdx fun index p => (index, p.displayName.getD "")

/-- The observable effects of one `FormatDocumentMultipleAction.run`:
the providers passed to `formatDocumentWithProvider` (JS indexing, so a
(unreachable) stale index would pass `undefined`, i.e. `none`), and the
telemetry events emitted. -/
structure DocRunResult where
  formatCalls : List (Option FormatProvider)
  telemetry : List FormatterPickEvent
deriving DecidableEq, Repr

/-- Method `FormatDocumentMultipleAction.run` from the source. `hasModel` is
`editor.hasModel()`; `provider` is the list returned by
`getRealAndSyntheticDocumentFormattersOrdered(model)`; `pickIndex` is the
`index` field of the entry the quick-pick resolved with (`none` on
cancellation). -/
def runFormatDocument (hasModel : Bool) (provider : List FormatProvider)
    (pickIndex : Option Nat) : DocRunResult :=
  if hasModel = false then
    { formatCalls := [], telemetry := [] }
  else
    { formatCalls :=
        match pickIndex with
        | some i => [provider[i]?]
        | none => []
      telemetry :=
        [logFormatterTelemetry "document" provider
          (pickIndex.bind fun i => provider[i]?)] }

/-- A `Range` of the editor core: 1-based start and end positions. -/
structure Range where
  startLineNumber : Nat
  startColumn : Nat
  endLineNumber : Nat
  endColumn : Nat
deriving DecidableEq, Repr

/-- Modelled from the spec: a selection is empty (collapsed) when its start
and end positions coincide (`Range.isEmpty` lives in the editor core outside
this module). -/
def Range.isEmpty (r : Range) : Bool :=
  r.startLineNumber == r.endLineNumber && r.startColumn == r.endColumn

/-- Modelled from the spec: `model.getLineMaxColumn(L)` is the column one
past the end of line `L`, i.e. the length of the line plus one, so that widening a
collapsed selection to the full line yields `[L,1 .. L,n+1]` for a line of
length `n`. The lines of the model are passed as a 1-indexed list. -/
def getLineMaxColumn (lines : List String) (lineNumber : Nat) : Nat :=
  (lines.getD (lineNumber - 1) "").length + 1

/-- The observable effects of one `FormatSelectionMultipleAction.run`: the
(provider, range) arguments passed to `formatDocumentRangeWithProvider`, and
the telemetry events emitted. -/
structure SelRunResult where
  formatCalls : List (Option FormatProvider × Range)
  telemetry : List FormatterPickEvent
deriving DecidableEq, Repr

/-- Method `FormatSelectionMultipleAction.run` from the source. `lines` are the
lines of the model (1-indexed); `selection` is `editor.getSelection()`;
`provider` is `DocumentRangeFormattingEditProviderRegistry.ordered(model)`;
`pickIndex` as in `runFormatDocument`. -/
def runFormatSelection (hasModel : Bool) (lines : List String)
    (selection : Range) (provider : List FormatProvider)
    (pickIndex : Option Nat) : SelRunResult :=
  if hasModel = false then
    { formatCalls := [], telemetry := [] }
  else
    let range : Range :=
      if selection.isEmpty then
        { startLineNumber := selection.startLineNumber
          startColumn := 1
          endLineNumber := selection.startLineNumber
          endColumn := getLineMaxColumn lines selection.startLineNumber }
      else selection
    { formatCalls :=
        match pickIndex with
        | some i => [(provider[i]?, range)]
        | none => []
      telemetry :=
        [logFormatterTelemetry "range" provider
          (pickIndex.bind fun i => provider[i]?)] }

/-- Helper: a string starting with a nonempty string is nonempty. -/
theorem append_ne_empty_left (a b : String) (h : a ≠ "") : a ++ b ≠ "" := by
  intro hab
  apply h
  have hd : (a ++ b).data = [] := by rw [hab]
  rw [String.data_append] at hd
  exact String.ext (List.append_eq_nil.mp hd).1

/-- Helper: a pattern whose characters sit contiguously inside the
characters of `s` is found by `strContains`. -/
theorem strContains_of_data (s pat : String) (u v : List Char)
    (h : s.data = u ++ (pat.data ++ v)) : strContains s pat = true := by
  unfold strContains
  rw [List.any_eq_true]
  refine ⟨u.length, ?_, ?_⟩
  · rw [List.mem_range, h, List.length_append, List.length_append]
    omega
  · rw [h, List.drop_left, List.take_left]
    exact beq_self_eq_true pat.data

/-- Helper: the action segment of the params built by `launchSsmsDialog` is
always the double-quoted fixed action literal. -/
theorem actionSeg_ssmsParamsOf (cp : IConnectionProfile) (urn : Option String) :
    actionSeg (ssmsParamsOf cp urn) = "-a \"" ++ fixedAction ++ "\"" := by
  have h : strTruthy fixedAction = true := by decide
  simp [actionSeg, ssmsParamsOf, h]

/-- Helper: the value fed to `stdin.end` — the password when truthy, else
the empty string — equals the password defaulted to the empty string. -/
theorem stdin_prompt_eq_getD (o : Option String) :
    (if optStrTruthy o then jsStr o else "") = o.getD "" := by
  cases o with
  | none => rfl
  | some s =>
    by_cases h : s = ""
    · simp [optStrTruthy, jsStr, h]
    · simp [optStrTruthy, jsStr, h]

/-- Helper: the -U segment is nonempty exactly when useAad is not true. -/
theorem userSeg_ne_empty_iff (p : LaunchSsmsDialogParams) :
    (userSeg p ≠ "") ↔ p.useAad ≠ some true := by
  by_cases h : p.useAad = some true
  · simp [userSeg, h]
  · have hne : "-U \"" ++ jsStr p.user ++ "\"" ≠ "" :=
      append_ne_empty_left _ _ (append_ne_empty_left _ _ (by decide))
    simp [userSeg, h, hne]

/-- Helper: the -G segment is nonempty exactly when useAad is true. -/
theorem aadSeg_ne_empty_iff (p : LaunchSsmsDialogParams) :
    (aadSeg p ≠ "") ↔ p.useAad = some true := by
  by_cases h : p.useAad = some true <;> simp [aadSeg, h]

/-- C1: in the argument string built by `buildSsmsMinCommandArgs`, the -G
flag segment is emitted iff `useAad` is true and the -U flag segment is
emitted iff `useAad` is not true, so the two are never emitted together; at
the concrete params of the spec, the built string contains the literal texts
the spec requires and not the excluded ones. -/
theorem C1_aad_user_flags_mutually_exclusive (p : LaunchSsmsDialogParams) :
    ((aadSeg p ≠ "") ↔ p.useAad = some true)
    ∧ ((userSeg p ≠ "") ↔ p.useAad ≠ some true)
    ∧ (aadSeg p = "" ∨ userSeg p = "")
    ∧ strContains (buildSsmsMinCommandArgs
        { action := "X", server := "S", useAad := some true }) "-a \"X\"" = true
    ∧ strContains (buildSsmsMinCommandArgs
        { action := "X", server := "S", useAad := some true }) "-S \"S\"" = true
    ∧ strContains (buildSsmsMinCommandArgs
        { action := "X", server := "S", useAad := some true }) "-G" = true
    ∧ strContains (buildSsmsMinCommandArgs
        { action := "X", server := "S", useAad := some true }) "-U" = false
    ∧ strContains (buildSsmsMinCommandArgs
        { action := "X", server := "S", useAad := some false, user := some "U" })
        "-U \"U\"" = true
    ∧ strContains (buildSsmsMinCommandArgs
        { action := "X", server := "S", useAad := some false, user := some "U" })
        "-G" = false := by
  refine ⟨aadSeg_ne_empty_iff p, userSeg_ne_empty_iff p, ?_,
    by decide, by decide, by decide, by decide, by decide, by decide⟩
  by_cases h : p.useAad = some true
  · right; simp [userSeg, h]
  · left; simp [aadSeg, h]

/-- C2 counterexample: with `user` absent (and `useAad` unset, hence not
true), the built argument string still contains a -U segment, rendered with
the literal text undefined. -/
theorem C2_counterexample :
    ({ action := "a", server := "s" } : LaunchSsmsDialogParams).user = none
    ∧ strContains (buildSsmsMinCommandArgs { action := "a", server := "s" })
        "-U \"undefined\"" = true :=
  ⟨rfl, by decide⟩

/-- C2 amended: the -a, -S, -D and -u segments are emitted exactly when the
corresponding field is present and truthy, but the -U segment is controlled
by `useAad` alone — emitted exactly when `useAad` is not true, even when
`user` is absent — and the -G segment exactly when `useAad` is true. -/
theorem C2_flag_emission_conditions (p : LaunchSsmsDialogParams) :
    ((actionSeg p ≠ "") ↔ strTruthy p.action = true)
    ∧ ((serverSeg p ≠ "") ↔ strTruthy p.server = true)
    ∧ ((databaseSeg p ≠ "") ↔ optStrTruthy p.database = true)
    ∧ ((urnSeg p ≠ "") ↔ optStrTruthy p.urn = true)
    ∧ ((userSeg p ≠ "") ↔ p.useAad ≠ some true)
    ∧ ((aadSeg p ≠ "") ↔ p.useAad = some true) := by
  refine ⟨?_, ?_, ?_, ?_, userSeg_ne_empty_iff p, aadSeg_ne_empty_iff p⟩
  · by_cases h : strTruthy p.action = true
    · have hne : "-a \"" ++ p.action ++ "\"" ≠ "" :=
        append_ne_empty_left _ _ (append_ne_empty_left _ _ (by decide))
      simp [actionSeg, h, hne]
    · simp [actionSeg, h]
  · by_cases h : strTruthy p.server = true
    · have hne : "-S \"" ++ p.server ++ "\"" ≠ "" :=
        append_ne_empty_left _ _ (append_ne_empty_left _ _ (by decide))
      simp [serverSeg, h, hne]
    · simp [serverSeg, h]
  · by_cases h : optStrTruthy p.database = true
    · have hne : "-D \"" ++ jsStr p.database ++ "\"" ≠ "" :=
        append_ne_empty_left _ _ (append_ne_empty_left _ _ (by decide))
      simp [databaseSeg, h, hne]
    · simp [databaseSeg, h]
  · by_cases h : optStrTruthy p.urn = true
    · have hne : "-u \"" ++ jsStr p.urn ++ "\"" ≠ "" :=
        append_ne_empty_left _ _ (append_ne_empty_left _ _ (by decide))
      simp [urnSeg, h, hne]
    · simp [urnSeg, h]

/-- C3: whatever action argument `launchSsmsDialog` is called with, whenever
it spawns a process the params it constructs carry the fixed
server-properties action identifier, the -a segment of the argument string
is that fixed identifier double-quoted, the spawned command line contains
that -a segment, and the action field of the `LaunchSsmsDialogResult`
telemetry event is the fixed identifier. -/
theorem C3_action_is_fixed_literal (exePath : Option String) (action : String)
    (cp : IConnectionProfile) (urn : Option String) :
    ((launchSsmsDialog exePath action cp urn).spawned.map
        fun s => s.builtParams.action)
      = (if optStrTruthy exePath = true then some fixedAction else none)
    ∧ ((launchSsmsDialog exePath action cp urn).spawned.map
        fun s => actionSeg s.builtParams)
      = (if optStrTruthy exePath = true
         then some ("-a \"" ++ fixedAction ++ "\"") else none)
    ∧ ((launchSsmsDialog exePath action cp urn).spawned.map
        fun s => strContains s.command ("-a \"" ++ fixedAction ++ "\""))
      = (if optStrTruthy exePath = true then some true else none)
    ∧ ((launchSsmsDialog exePath action cp urn).spawned.map
        fun s => s.resultAction)
      = (if optStrTruthy exePath = true then some fixedAction else none) := by
  cases h : optStrTruthy exePath
  · simp [launchSsmsDialog, h]
  · refine ⟨?_, ?_, ?_, ?_⟩
    · simp [launchSsmsDialog, h, ssmsParamsOf]
    · simp [launchSsmsDialog, h, actionSeg_ssmsParamsOf]
    · simp only [launchSsmsDialog, h, Bool.true_eq_false, if_neg, reduceIte,
        Option.map_some']
      refine congrArg some ?_
      refine strContains_of_data _ _ ("\"" ++ jsStr exePath ++ "\" ").data
        ("    " ++ serverSeg (ssmsParamsOf cp urn) ++ "     "
          ++ databaseSeg (ssmsParamsOf cp urn) ++ "     "
          ++ userSeg (ssmsParamsOf cp urn) ++ "     "
          ++ aadSeg (ssmsParamsOf cp urn) ++ "     "
          ++ urnSeg (ssmsParamsOf cp urn)).data ?_
      simp [String.data_append, buildSsmsMinCommandArgs, actionSeg_ssmsParamsOf]
    · simp [launchSsmsDialog, h, ssmsParamsOf]


/-- C4: when the cached executable path is falsy, `launchSsmsDialog` shows
the error notification, spawns nothing and emits no telemetry; a process is
spawned exactly when the cached path is truthy. -/
theorem C4_missing_exe_aborts_before_spawn (exePath : Option String)
    (action : String) (cp : IConnectionProfile) (urn : Option String) :
    ((launchSsmsDialog exePath action cp urn).spawned).isSome = optStrTruthy exePath
    ∧ (launchSsmsDialog exePath action cp urn).errorMessages
      = (if optStrTruthy exePath = false then ["Unable to find SsmsMin.exe."] else [])
    ∧ (launchSsmsDialog exePath action cp urn).telemetry
      = (if optStrTruthy exePath = false then []
         else [{ name := "LaunchSsmsDialog", props := [("action", action)] }]) := by
  cases h : optStrTruthy exePath <;>
    simp [launchSsmsDialog, h]

/-- C5: whenever `launchSsmsDialog` spawns a process, the params mark
`useAad` true exactly when the profile uses AzureMFA authentication; with
`useAad` true nothing is written to the stdin of the process, and otherwise
`stdin.end` writes exactly the password — the empty string when the
password is absent — and closes the stream. -/
theorem C5_stdin_written_iff_not_aad (exePath : Option String)
    (action : String) (cp : IConnectionProfile) (urn : Option String) :
    ((launchSsmsDialog exePath action cp urn).spawned.map
        fun s => s.builtParams.useAad)
      = (if optStrTruthy exePath = true
         then some (some (cp.authenticationType == "AzureMFA")) else none)
    ∧ ((launchSsmsDialog exePath action cp urn).spawned.map
        fun s => s.stdinEnd)
      = (if optStrTruthy exePath = true
         then some (if cp.authenticationType = "AzureMFA" then none
                    else some (cp.password.getD ""))
         else none) := by
  cases h : optStrTruthy exePath
  · simp [launchSsmsDialog, h]
  · refine ⟨by simp [launchSsmsDialog, h, ssmsParamsOf], ?_⟩
    by_cases haad : cp.authenticationType = "AzureMFA"
    · simp [launchSsmsDialog, h, ssmsParamsOf, haad]
    · have hbeq : (cp.authenticationType == "AzureMFA") = false := by
        simp [haad]
      simp [launchSsmsDialog, h, ssmsParamsOf, haad, hbeq, stdin_prompt_eq_getD]

/-- C6: on the win32 platform, when the download/locate step fails,
`activate` emits exactly the startup/ExtensionInitializationFailed telemetry
event, the returned promise resolves and is not rejected, and no
user-visible error message is shown on this path. -/
theorem C6_download_failure_swallowed (extensionPath baseDir : String)
    (proxySetting strictSSLSetting : JSVal) :
    (activate "win32" extensionPath baseDir proxySetting strictSSLSetting
        DownloadOutcome.failure).telemetry
      = ["startup/ExtensionInitializationFailed"]
    ∧ (activate "win32" extensionPath baseDir proxySetting strictSSLSetting
        DownloadOutcome.failure).resolved = true
    ∧ (activate "win32" extensionPath baseDir proxySetting strictSSLSetting
        DownloadOutcome.failure).rejected = false
    ∧ (activate "win32" extensionPath baseDir proxySetting strictSSLSetting
        DownloadOutcome.failure).errorMessages = [] := by
  refine ⟨?_, ?_, ?_, ?_⟩ <;> simp [activate]

/-- C10: the strictSSL field of the download configuration built during
activation on win32 is truthy for every value of the http.proxyStrictSSL
setting; in particular the JS or-operator replaces both an explicit false
and an absent setting by true. -/
theorem C10_strict_ssl_never_disabled (extensionPath baseDir : String)
    (proxySetting v : JSVal) (outcome : DownloadOutcome) :
    ((activate "win32" extensionPath baseDir proxySetting v outcome).config.map
        fun c => c.strictSSL.truthy) = some true
    ∧ jsOr (JSVal.bool false) (JSVal.bool true) = JSVal.bool true
    ∧ jsOr JSVal.undef (JSVal.bool true) = JSVal.bool true := by
  refine ⟨?_, by decide, by decide⟩
  have hor : (jsOr v (JSVal.bool true)).truthy = true := by
    cases h : v.truthy
    · have hv : jsOr v (JSVal.bool true) = JSVal.bool true := by
        simp [jsOr, h]
      rw [hv]
      rfl
    · simp [jsOr, h]
  cases outcome <;> simp [activate, hor]

/-- C7: when the quick-pick of either picker command resolves with no
selection, no formatting invocation is made and exactly one formatterpick
telemetry event is emitted, with pick equal to "none". -/
theorem C7_cancellation_emits_pick_none (provider providerR : List FormatProvider)
    (lines : List String) (sel : Range) :
    (runFormatDocument true provider none).formatCalls = []
    ∧ (runFormatDocument true provider none).telemetry
      = [{ mode := "document", extensions := provider.map extKey, pick := "none" }]
    ∧ (runFormatSelection true lines sel providerR none).formatCalls = []
    ∧ (runFormatSelection true lines sel providerR none).telemetry
      = [{ mode := "range", extensions := providerR.map extKey, pick := "none" }] := by
  refine ⟨?_, ?_, ?_, ?_⟩ <;>
    simp [runFormatDocument, runFormatSelection, logFormatterTelemetry]

/-- C8: when the quick-pick of either picker command resolves with the entry
carrying index i, the formatting invocation is made with exactly the
provider at position i of the list resolved during that same invocation. -/
theorem C8_pick_index_stability (provider providerR : List FormatProvider)
    (i j : Nat) (hi : i < provider.length) (hj : j < providerR.length)
    (lines : List String) (sel : Range) :
    (runFormatDocument true provider (some i)).formatCalls = [some provider[i]]
    ∧ ((runFormatSelection true lines sel providerR (some j)).formatCalls.map
        fun c => c.1) = [some providerR[j]] := by
  constructor
  · simp [runFormatDocument, List.getElem?_eq_getElem hi]
  · simp [runFormatSelection, List.getElem?_eq_getElem hj]

/-- C8 witness: concrete two-element provider lists, picks at indices 1
and 0. -/
theorem C8_pick_index_stability_witness :
    (runFormatDocument true
        [{ displayName := some "A", extensionId := some "ext.a" },
         { displayName := some "B" }] (some 1)).formatCalls
      = [some { displayName := some "B" }]
    ∧ ((runFormatSelection true ["hello"]
        { startLineNumber := 1, startColumn := 2, endLineNumber := 1, endColumn := 4 }
        [{ displayName := some "C", extensionId := some "ext.c" },
         { displayName := some "D" }] (some 0)).formatCalls.map
        fun c => c.1)
      = [some { displayName := some "C", extensionId := some "ext.c" }] :=
  C8_pick_index_stability
    [{ displayName := some "A", extensionId := some "ext.a" },
     { displayName := some "B" }]
    [{ displayName := some "C", extensionId := some "ext.c" },
     { displayName := some "D" }]
    1 0 (by decide) (by decide) ["hello"]
    { startLineNumber := 1, startColumn := 2, endLineNumber := 1, endColumn := 4 }

/-- C9: in the format-selection command with a picked provider at index i,
the range passed to the range-formatting invocation is the selection itself
when it is non-empty, and the full line of the cursor — from column 1 to the
line length plus one — when the selection is empty (collapsed). -/
theorem C9_empty_selection_widened_to_line (lines : List String) (sel : Range)
    (provider : List FormatProvider) (i : Nat) (hi : i < provider.length) :
    (runFormatSelection true lines sel provider (some i)).formatCalls
      = [(some provider[i],
          if sel.isEmpty then
            { startLineNumber := sel.startLineNumber
              startColumn := 1
              endLineNumber := sel.startLineNumber
              endColumn := (lines.getD (sel.startLineNumber - 1) "").length + 1 }
          else sel)] := by
  cases h : sel.isEmpty <;>
    simp [runFormatSelection, h, getLineMaxColumn, List.getElem?_eq_getElem hi]

/-- C9 witness: a collapsed selection at column 3 of line 1, whose line has
length 5, is widened to the range from (1,1) to (1,6); the picked provider
at index 0 is passed along. -/
theorem C9_empty_selection_widened_to_line_witness :
    (runFormatSelection true ["hello"]
        { startLineNumber := 1, startColumn := 3, endLineNumber := 1, endColumn := 3 }
        [{ displayName := some "E", extensionId := some "ext.e" }]
        (some 0)).formatCalls
      = [(some { displayName := some "E", extensionId := some "ext.e" },
          { startLineNumber := 1, startColumn := 1, endLineNumber := 1,
            endColumn := 6 })] :=
  C9_empty_selection_widened_to_line ["hello"]
    { startLineNumber := 1, startColumn := 3, endLineNumber := 1, endColumn := 3 }
    [{ displayName := some "E", extensionId := some "ext.e" }] 0 (by decide)

end ADS
